import Mathlib

/-!
Verification of the market contract's borrow/repay accounting core
(src/contracts/market/src/borrow.rs).

The embedding mirrors the handler functions of borrow.rs.  Machine
integers (Uint128, u64) are modelled as Nat; the cosmwasm Decimal type is
an 18-digit fixed-point number carried as its raw Nat value (value scaled
by SCALE).  External collaborators (borrow-rate oracle, borrow-limit
authority, bank balance query, storage) are passed in as parameters, as
the spec directs.  Fallible code returns an explicit outcome type: a
returned StdError is `err`, and a Rust panic (an `unwrap` of a failed
subtraction, or an underflowing raw u64 subtraction) is `abort`.

The fixed-point helpers `decimal_multiplication`, `decimal_division` and
`decimal_subtraction` live in crate::math, whose source file is not part
of this tree; they are modelled from the spec (section 4.1), as noted on
each definition.
-/

/-- Fixed-point scale of the Decimal type: 18 fractional decimal digits
(the cosmwasm DECIMAL_FRACTIONAL constant). -/
def SCALE : Nat := 1000000000000000000

/-- Fixed-point decimal, carried as its raw scaled value: a `Decimal`
with raw value `r` denotes the rational number `r / SCALE`. -/
abbrev Decimal := Nat

/-- Decimal::one, the ratio 1.0. -/
def Decimal.one : Decimal := SCALE

/-- Decimal::from_ratio(a, b) for Uint128 arguments: the quotient `a / b`
truncated to the fixed-point scale. -/
def mkDecimal (a b : Nat) : Decimal := a * SCALE / b

/-- Modelled from the spec: crate::math::decimal_multiplication (the
source file of crate::math is not in the tree).  Spec 4.1: returns `a*b`
with precision truncated to the fixed-point scale, truncation toward
zero. -/
def decimal_multiplication (a b : Decimal) : Decimal := a * b / SCALE

/-- Modelled from the spec: crate::math::decimal_division (the source
file of crate::math is not in the tree).  Spec 4.1: returns `a/b`
truncated to the fixed-point scale.  The zero-divisor failure case is
modelled by Nat division (which yields 0); every claim touching this
operation carries a positivity hypothesis on the divisor. -/
def decimal_division (a b : Decimal) : Decimal := a * SCALE / b

/-- Modelled from the spec: crate::math::decimal_subtraction (the source
file of crate::math is not in the tree).  Spec 4.1 and 8: the clamped
variant `max(a-b, 0)` is the one used on the repay path, which Nat
truncated subtraction realises exactly. -/
def decimal_subtraction (a b : Decimal) : Decimal := a - b

/-- cosmwasm `Uint128 * Decimal`: multiply by the raw value and truncate
by the scale. -/
def uintMulDecimal (u : Nat) (d : Decimal) : Nat := u * d / SCALE

/-- Checked unsigned subtraction, `none` on underflow.  Models both the
fallible Uint128 subtraction (whose failure is a returned StdError) and
the raw u64 subtraction (whose underflow is an execution trap); each call
site below maps `none` to the outcome the source produces there. -/
def checkedSub (a b : Nat) : Option Nat := if b ≤ a then some (a - b) else none

/-- Outcome of a contract call: a successful result, a returned StdError
carrying its message, or an aborted execution (a panic: an `unwrap` of a
failed subtraction, or an underflowing raw u64 subtraction). -/
inductive TxResult (α : Type) where
  | ok : α → TxResult α
  | err : String → TxResult α
  | abort : TxResult α
deriving DecidableEq

/-- Whether a call outcome is a success. -/
def TxResult.isOk {α : Type} : TxResult α → Bool
  | .ok _ => true
  | _ => false

/-- Ledger singleton (crate::state::State): the fields read and written
by borrow.rs.  `total_liabilities` and `total_reserves` are Decimal in
the handlers (borrow.rs lines 43 and 149 add/subtract Decimal values),
`global_interest_index` is Decimal, `last_interest_updated` is u64. -/
structure State where
  total_liabilities : Decimal
  total_reserves : Decimal
  global_interest_index : Decimal
  last_interest_updated : Nat
deriving DecidableEq

/-- Per-borrower liability record (crate::state::Liability):
`loan_amount` is Uint128, `interest_index` is Decimal. -/
structure Liability where
  loan_amount : Nat
  interest_index : Decimal
deriving DecidableEq

/-- borrow.rs compute_interest (lines 170-197).  The borrow-rate oracle
response and config.reserve_factor are parameters.  Line 179 computes
`block_height - state.last_interest_updated` as a raw u64 subtraction:
when `block_height` is smaller the subtraction underflows and execution
traps, modelled as `abort`; there is no defined in-range result. -/
def compute_interest (rate reserve_factor : Decimal) (state : State)
    (block_height : Nat) : TxResult State :=
  match checkedSub block_height state.last_interest_updated with
  | none => TxResult.abort
  | some passed_blocks =>
    let interest_factor : Decimal :=
      decimal_multiplication (mkDecimal passed_blocks 1) rate
    let interest_accrued : Decimal :=
      decimal_multiplication state.total_liabilities interest_factor
    TxResult.ok
      { total_liabilities := state.total_liabilities + interest_accrued
        total_reserves := state.total_reserves +
          decimal_multiplication interest_accrued reserve_factor
        global_interest_index := decimal_multiplication
          state.global_interest_index (Decimal.one + interest_factor)
        last_interest_updated := block_height }

/-- borrow.rs compute_loan (lines 200-204): rescale the stored debt
snapshot by the ratio of the current global index to the stored index,
then stamp the record with the current global index. -/
def compute_loan (state : State) (liability : Liability) : Liability :=
  { loan_amount := uintMulDecimal liability.loan_amount
      (decimal_division state.global_interest_index liability.interest_index)
    interest_index := state.global_interest_index }

/-- borrow.rs borrow_stable (lines 18-66).  The borrow-limit authority
response is the `borrow_limit` parameter.  Returns the stored state and
liability on success; the disbursement instruction amount equals
`borrow_amount` (pre-levy), so it is not repeated in the result. -/
def borrow_stable (rate reserve_factor : Decimal) (state : State)
    (liability : Liability) (block_height borrow_amount borrow_limit : Nat) :
    TxResult (State × Liability) :=
  match compute_interest rate reserve_factor state block_height with
  | .abort => TxResult.abort
  | .err e => TxResult.err e
  | .ok state1 =>
    let liability1 := compute_loan state1 liability
    if borrow_limit < borrow_amount + liability1.loan_amount then
      TxResult.err "Cannot borrow more than limit"
    else
      let newTotal := state1.total_liabilities + mkDecimal borrow_amount 1
      TxResult.ok
        ({ state1 with total_liabilities := newTotal },
         { liability1 with loan_amount := liability1.loan_amount + borrow_amount })

/-- Amount of the configured stable denomination among the attached
funds (borrow.rs lines 104-110): the first matching coin, zero when no
coin of that denomination is attached. -/
def sentAmount (sent_funds : List (String × Nat)) (denom : String) : Nat :=
  match sent_funds.find? (fun c => c.1 == denom) with
  | some c => c.2
  | none => 0

/-- borrow.rs repay_stable (lines 97-166).  The result carries the
stored state, the stored liability, and the refund instruction amount
(`some r` exactly when the overpayment branch pushes a bank send of `r`,
pre-levy; `none` when no message is pushed).  The two fallible Uint128
subtractions (lines 140 and 146) return a StdError on underflow, which
the `?` operator propagates as `err`. -/
def repay_stable (rate reserve_factor : Decimal) (stable_denom : String)
    (state : State) (liability : Liability) (block_height : Nat)
    (sent_funds : List (String × Nat)) :
    TxResult (State × Liability × Option Nat) :=
  let amount := sentAmount sent_funds stable_denom
  if amount = 0 then TxResult.err "Cannot repay zero coins"
  else
    match compute_interest rate reserve_factor state block_height with
    | .abort => TxResult.abort
    | .err e => TxResult.err e
    | .ok state1 =>
      let liability1 := compute_loan state1 liability
      if liability1.loan_amount < amount then
        let repay_amount := liability1.loan_amount
        let newTotal :=
          decimal_subtraction state1.total_liabilities (mkDecimal repay_amount 1)
        match checkedSub amount repay_amount with
        | none => TxResult.err "Underflow"
        | some refund =>
          TxResult.ok
            ({ state1 with total_liabilities := newTotal },
             { liability1 with loan_amount := 0 },
             some refund)
      else
        let repay_amount := amount
        let newTotal :=
          decimal_subtraction state1.total_liabilities (mkDecimal repay_amount 1)
        match checkedSub liability1.loan_amount repay_amount with
        | none => TxResult.err "Underflow"
        | some new_loan =>
          TxResult.ok
            ({ state1 with total_liabilities := newTotal },
             { liability1 with loan_amount := new_loan },
             none)

/-- borrow.rs repay_stable_from_liquidation (lines 68-95).  The
authorization comparison of the sender against config.overseer_contract
is the boolean parameter; the bank balance query result is
`cur_balance`.  Line 91 computes `(cur_balance - prev_balance).unwrap()`:
the Uint128 subtraction returns a StdError on underflow and the
`unwrap()` turns that error into a panic, modelled as `abort`. -/
def repay_stable_from_liquidation (rate reserve_factor : Decimal)
    (stable_denom : String) (sender_is_overseer : Bool)
    (cur_balance prev_balance : Nat) (state : State) (liability : Liability)
    (block_height : Nat) : TxResult (State × Liability × Option Nat) :=
  if !sender_is_overseer then TxResult.err "unauthorized"
  else
    match checkedSub cur_balance prev_balance with
    | none => TxResult.abort
    | some amount =>
      repay_stable rate reserve_factor stable_denom state liability
        block_height [(stable_denom, amount)]

/-- One ledger-touching operation of the market, with the external
responses (rate, reserve factor, limit) it observed. -/
inductive Op where
  | accrue (rate reserve_factor : Decimal) (height : Nat)
  | borrow (rate reserve_factor : Decimal) (height amount limit : Nat)
  | repay (rate reserve_factor : Decimal) (height : Nat)
      (funds : List (String × Nat))

/-- Host transaction semantics for one operation: on success the stored
state and liability are the returned ones; on a returned error or a trap
the host rolls the transaction back, so the stored records keep their
pre-call values. -/
def applyOp (denom : String) (s : State × Liability) : Op → State × Liability
  | .accrue rate rf h =>
    match compute_interest rate rf s.1 h with
    | .ok s1 => (s1, s.2)
    | _ => s
  | .borrow rate rf h amount limit =>
    match borrow_stable rate rf s.1 s.2 h amount limit with
    | .ok r => r
    | _ => s
  | .repay rate rf h funds =>
    match repay_stable rate rf denom s.1 s.2 h funds with
    | .ok (s1, l1, _) => (s1, l1)
    | _ => s

/-- Stored state after a sequence of operations. -/
def execOps (denom : String) (s : State × Liability) : List Op → State × Liability
  | [] => s
  | op :: rest => execOps denom (applyOp denom s op) rest

/-! ## Arithmetic helper lemmas -/

theorem SCALE_pos : 0 < SCALE := by decide

theorem mul_scale_div_scale (a : Nat) : a * SCALE / SCALE = a :=
  Nat.mul_div_cancel a SCALE_pos

theorem div_self_scale (a : Nat) (h : 0 < a) : a * SCALE / a = SCALE :=
  Nat.mul_div_cancel_left SCALE h

theorem le_index_growth (a f : Nat) : a ≤ a * (SCALE + f) / SCALE := by
  have h1 : a * SCALE ≤ a * (SCALE + f) :=
    Nat.mul_le_mul (Nat.le_refl a) (Nat.le_add_right SCALE f)
  have h2 : a * SCALE / SCALE ≤ a * (SCALE + f) / SCALE :=
    Nat.div_le_div_right h1
  rwa [mul_scale_div_scale] at h2

theorem factor_exact (e rate : Nat) :
    decimal_multiplication (mkDecimal e 1) rate = e * rate := by
  unfold decimal_multiplication mkDecimal
  rw [Nat.div_one, mul_right_comm, mul_scale_div_scale]

theorem factor_exact_raw (e rate : Nat) :
    mkDecimal e 1 * rate / SCALE = e * rate := factor_exact e rate

/-! ## Facts about compute_interest -/

theorem compute_interest_zero_elapsed (rate reserve_factor : Decimal) (s : State) :
    compute_interest rate reserve_factor s s.last_interest_updated =
      TxResult.ok s := by
  simp [compute_interest, checkedSub, mkDecimal, decimal_multiplication,
    Decimal.one, Nat.sub_self, mul_scale_div_scale]

theorem compute_interest_ok_inv {rate reserve_factor : Decimal} {s s1 : State}
    {h : Nat} (H : compute_interest rate reserve_factor s h = TxResult.ok s1) :
    s.last_interest_updated ≤ h ∧ s1.last_interest_updated = h ∧
    s.global_interest_index ≤ s1.global_interest_index := by
  by_cases hle : s.last_interest_updated ≤ h
  · simp only [compute_interest, checkedSub, if_pos hle, TxResult.ok.injEq] at H
    refine ⟨hle, ?_, ?_⟩
    · rw [← H]
    · rw [← H]
      exact le_index_growth s.global_interest_index _
  · simp [compute_interest, checkedSub, hle] at H

/-! ## Claim theorems -/

/-- Claim C2: for every ledger state with last_interest_updated at most
now, compute_interest updates the ledger exactly by the spec formulas:
elapsed = now - last_interest_updated, interest_factor = elapsed * rate
(exact, since scaling by the integer elapsed loses no precision),
interest_accrued = total_liabilities * interest_factor (truncating),
global_interest_index multiplied by (1 + interest_factor) (truncating),
total_liabilities increased by interest_accrued, total_reserves increased
by interest_accrued * reserve_factor (truncating), and
last_interest_updated set to now. -/
theorem compute_interest_formula (rate reserve_factor : Decimal) (s : State)
    (now : Nat) (hle : s.last_interest_updated ≤ now) :
    compute_interest rate reserve_factor s now = TxResult.ok
      { total_liabilities := s.total_liabilities +
          s.total_liabilities * ((now - s.last_interest_updated) * rate) / SCALE
        total_reserves := s.total_reserves +
          s.total_liabilities * ((now - s.last_interest_updated) * rate) / SCALE *
            reserve_factor / SCALE
        global_interest_index := s.global_interest_index *
          (SCALE + (now - s.last_interest_updated) * rate) / SCALE
        last_interest_updated := now } := by
  simp [compute_interest, checkedSub, hle, factor_exact, factor_exact_raw,
    decimal_multiplication, Decimal.one]

/-- Claim C2 witness: accruing from height 100 to 200 at rate 0.01 on an
empty pool doubles the interest index and leaves the aggregates at
zero. -/
theorem compute_interest_formula_witness :
    (100 : Nat) ≤ 200 ∧
    compute_interest 10000000000000000 0 ⟨0, 0, SCALE, 100⟩ 200 =
      TxResult.ok ⟨0, 0, 2000000000000000000, 200⟩ :=
  ⟨by decide,
   (compute_interest_formula 10000000000000000 0 ⟨0, 0, SCALE, 100⟩ 200
     (by decide)).trans (by decide)⟩

/-- Claim C6: a second compute_interest call at the block height of the
previous accrual is a no-op: elapsed is zero, so the interest factor is
zero and every field keeps its post-first-call value, for any rate and
reserve factor observed by the second call. -/
theorem accrual_idempotent_same_height (rate1 rf1 rate2 rf2 : Decimal)
    (s s1 : State) (h : Nat)
    (H : compute_interest rate1 rf1 s h = TxResult.ok s1) :
    compute_interest rate2 rf2 s1 h = TxResult.ok s1 := by
  have hlast : s1.last_interest_updated = h := (compute_interest_ok_inv H).2.1
  rw [← hlast]
  exact compute_interest_zero_elapsed rate2 rf2 s1

/-- Claim C6 witness: after accruing to height 5, accruing again at
height 5 returns the state unchanged. -/
theorem accrual_idempotent_same_height_witness :
    compute_interest 0 0 ⟨0, 0, SCALE, 0⟩ 5 = TxResult.ok ⟨0, 0, SCALE, 5⟩ ∧
    compute_interest 0 0 ⟨0, 0, SCALE, 5⟩ 5 = TxResult.ok ⟨0, 0, SCALE, 5⟩ :=
  ⟨by decide,
   accrual_idempotent_same_height 0 0 0 0 ⟨0, 0, SCALE, 0⟩ ⟨0, 0, SCALE, 5⟩ 5
     (by decide)⟩

/-- Claim C8 (amended): the elapsed-time computation of compute_interest
is the raw u64 difference.  For block heights at or above
last_interest_updated the subtraction is in range and the call succeeds;
for a block height below last_interest_updated the subtraction underflows
and the call aborts (a trap), rather than treating elapsed as zero. -/
theorem elapsed_time_no_clamp (rate reserve_factor : Decimal) (s : State)
    (h : Nat) :
    (s.last_interest_updated ≤ h →
      (compute_interest rate reserve_factor s h).isOk = true) ∧
    (h < s.last_interest_updated →
      compute_interest rate reserve_factor s h = TxResult.abort) := by
  constructor
  · intro hle
    simp [compute_interest, checkedSub, hle, TxResult.isOk]
  · intro hlt
    have hn : ¬ s.last_interest_updated ≤ h := Nat.not_le.mpr hlt
    simp [compute_interest, checkedSub, hn]

/-- Claim C8 counterexample: at block height 0 with
last_interest_updated 1, compute_interest aborts on the underflowing u64
subtraction instead of treating the elapsed time as zero (a
treat-as-zero no-op would return the state unchanged). -/
theorem elapsed_time_no_clamp_cex :
    compute_interest 0 0 ⟨0, 0, SCALE, 1⟩ 0 = TxResult.abort ∧
    compute_interest 0 0 ⟨0, 0, SCALE, 1⟩ 0 ≠ TxResult.ok ⟨0, 0, SCALE, 1⟩ := by
  decide

/-- Claim C8 witness: the amended statement at concrete heights, on both
sides of last_interest_updated. -/
theorem elapsed_time_no_clamp_witness :
    (compute_interest 0 0 ⟨0, 0, SCALE, 5⟩ 7).isOk = true ∧
    compute_interest 0 0 ⟨0, 0, SCALE, 5⟩ 3 = TxResult.abort :=
  ⟨(elapsed_time_no_clamp 0 0 ⟨0, 0, SCALE, 5⟩ 7).1 (by decide),
   (elapsed_time_no_clamp 0 0 ⟨0, 0, SCALE, 5⟩ 3).2 (by decide)⟩

/-- Claim C4: projection against a synced index I1 > 0 with global index
I2 at least I1 sets the loan amount to the stored debt times the
truncated fixed-point ratio I2/I1 and stamps the record with I2;
re-projecting against the same ledger is a no-op, and a record whose
index already equals the global index projects to itself (ratio 1). -/
theorem compute_loan_projection (s : State) (l : Liability)
    (h1 : 0 < l.interest_index)
    (h2 : l.interest_index ≤ s.global_interest_index) :
    (compute_loan s l).loan_amount =
      l.loan_amount * (s.global_interest_index * SCALE / l.interest_index) /
        SCALE ∧
    (compute_loan s l).interest_index = s.global_interest_index ∧
    compute_loan s (compute_loan s l) = compute_loan s l ∧
    (l.interest_index = s.global_interest_index → compute_loan s l = l) := by
  have hI2 : 0 < s.global_interest_index := Nat.lt_of_lt_of_le h1 h2
  refine ⟨rfl, rfl, ?_, ?_⟩
  · simp [compute_loan, uintMulDecimal, decimal_division,
      div_self_scale s.global_interest_index hI2, mul_scale_div_scale]
  · intro he
    simp [compute_loan, uintMulDecimal, decimal_division, ← he,
      div_self_scale l.interest_index h1, mul_scale_div_scale]

/-- Claim C4 witness: a record of 1000000 synced at index 1.0 projects to
2000000 under global index 2.0, and re-projection is a no-op. -/
theorem compute_loan_projection_witness :
    (compute_loan ⟨0, 0, 2 * SCALE, 0⟩ ⟨1000000, SCALE⟩).loan_amount = 2000000 ∧
    compute_loan ⟨0, 0, 2 * SCALE, 0⟩
        (compute_loan ⟨0, 0, 2 * SCALE, 0⟩ ⟨1000000, SCALE⟩) =
      compute_loan ⟨0, 0, 2 * SCALE, 0⟩ ⟨1000000, SCALE⟩ :=
  ⟨by decide,
   (compute_loan_projection ⟨0, 0, 2 * SCALE, 0⟩ ⟨1000000, SCALE⟩ (by decide)
     (by decide)).2.2.1⟩

/-- Claim C1: after accrual and projection, a borrow request is rejected
with the borrow-limit error exactly when the externally supplied limit is
below the projected debt plus the request, and on rejection the stored
ledger state and stored liability record keep their pre-call values (the
host transaction rolls back, so nothing is persisted); otherwise the
borrow succeeds, adding the request at face value to the projected
records. -/
theorem borrow_limit_enforced (rate rf : Decimal) (denom : String)
    (s s1 : State) (l : Liability) (h amount limit : Nat)
    (H : compute_interest rate rf s h = TxResult.ok s1) :
    (limit < (compute_loan s1 l).loan_amount + amount →
      borrow_stable rate rf s l h amount limit =
        TxResult.err "Cannot borrow more than limit" ∧
      applyOp denom (s, l) (Op.borrow rate rf h amount limit) = (s, l)) ∧
    ((compute_loan s1 l).loan_amount + amount ≤ limit →
      borrow_stable rate rf s l h amount limit = TxResult.ok
        ({ s1 with total_liabilities := s1.total_liabilities + mkDecimal amount 1 },
         { compute_loan s1 l with
            loan_amount := (compute_loan s1 l).loan_amount + amount })) := by
  constructor
  · intro hlt
    have hcond : limit < amount + (compute_loan s1 l).loan_amount := by omega
    constructor
    · simp [borrow_stable, H, hcond]
    · simp [applyOp, borrow_stable, H, hcond]
  · intro hge
    have hcond : ¬ limit < amount + (compute_loan s1 l).loan_amount := by omega
    simp [borrow_stable, H, hcond]

/-- Claim C1 witness: with projected debt 5 and request 10 against limit
4, the borrow is rejected and the rollback keeps the stored records at
their pre-call values. -/
theorem borrow_limit_enforced_witness :
    borrow_stable 0 0 ⟨0, 0, SCALE, 0⟩ ⟨5, SCALE⟩ 0 10 4 =
      TxResult.err "Cannot borrow more than limit" ∧
    applyOp "uusd" (⟨0, 0, SCALE, 0⟩, ⟨5, SCALE⟩) (Op.borrow 0 0 0 10 4) =
      (⟨0, 0, SCALE, 0⟩, ⟨5, SCALE⟩) :=
  (borrow_limit_enforced 0 0 "uusd" ⟨0, 0, SCALE, 0⟩ ⟨0, 0, SCALE, 0⟩
    ⟨5, SCALE⟩ 0 10 4 (by decide)).1 (by decide)

/-- Claim C9: a zero borrow request is not rejected: whenever the
supplied borrow limit is at least the projected loan amount, the borrow
of 0 succeeds and persists exactly the post-accrual ledger state and the
post-projection liability record, both unchanged by the zero request. -/
theorem borrow_zero_inert (rate rf : Decimal) (s s1 : State) (l : Liability)
    (h limit : Nat)
    (H : compute_interest rate rf s h = TxResult.ok s1)
    (hlim : (compute_loan s1 l).loan_amount ≤ limit) :
    borrow_stable rate rf s l h 0 limit = TxResult.ok (s1, compute_loan s1 l) := by
  have hcond : ¬ limit < 0 + (compute_loan s1 l).loan_amount := by omega
  simp [borrow_stable, H, hcond, mkDecimal, hlim]

/-- Claim C9 witness: a zero borrow at limit 100 against projected debt 5
succeeds and changes nothing. -/
theorem borrow_zero_inert_witness :
    borrow_stable 0 0 ⟨0, 0, SCALE, 0⟩ ⟨5, SCALE⟩ 0 0 100 =
      TxResult.ok (⟨0, 0, SCALE, 0⟩, ⟨5, SCALE⟩) :=
  borrow_zero_inert 0 0 ⟨0, 0, SCALE, 0⟩ ⟨0, 0, SCALE, 0⟩ ⟨5, SCALE⟩ 0 100
    (by decide) (by decide)

/-! ## Facts about repay_stable -/

theorem sentAmount_single (d : String) (t : Nat) : sentAmount [(d, t)] d = t := by
  simp [sentAmount]

theorem repay_stable_ok_of_pos (rate rf : Decimal) (denom : String) (s : State)
    (l : Liability) (h : Nat) (funds : List (String × Nat))
    (hle : s.last_interest_updated ≤ h)
    (hpos : sentAmount funds denom ≠ 0) :
    (repay_stable rate rf denom s l h funds).isOk = true := by
  obtain ⟨s1, Hs1⟩ : ∃ s1, compute_interest rate rf s h = TxResult.ok s1 := by
    simp [compute_interest, checkedSub, hle]
  by_cases hb : (compute_loan s1 l).loan_amount < sentAmount funds denom
  · simp [repay_stable, hpos, Hs1, hb, checkedSub, Nat.le_of_lt hb,
      TxResult.isOk]
  · have hb2 : sentAmount funds denom ≤ (compute_loan s1 l).loan_amount :=
      Nat.le_of_not_lt hb
    simp [repay_stable, hpos, Hs1, hb, checkedSub, hb2, TxResult.isOk]

theorem repay_stable_not_abort (rate rf : Decimal) (denom : String) (s : State)
    (l : Liability) (h : Nat) (funds : List (String × Nat))
    (hle : s.last_interest_updated ≤ h) :
    repay_stable rate rf denom s l h funds ≠ TxResult.abort := by
  by_cases h0 : sentAmount funds denom = 0
  · simp [repay_stable, h0]
  · have hok := repay_stable_ok_of_pos rate rf denom s l h funds hle h0
    intro He
    rw [He] at hok
    simp [TxResult.isOk] at hok

/-- Claim C7: over the valid input domain (monotone host time, so the
block height is at least the last accrual), repay_stable fails with the
InvalidAmount error "Cannot repay zero coins" exactly when the attached
funds carry a zero amount of the configured stable denomination (a
missing coin counts as zero), and succeeds for every strictly positive
attached amount — there is no other failure path. -/
theorem repay_zero_iff (rate rf : Decimal) (denom : String) (s : State)
    (l : Liability) (h : Nat) (funds : List (String × Nat))
    (hle : s.last_interest_updated ≤ h) :
    (repay_stable rate rf denom s l h funds =
        TxResult.err "Cannot repay zero coins" ↔
      sentAmount funds denom = 0) ∧
    (0 < sentAmount funds denom →
      (repay_stable rate rf denom s l h funds).isOk = true) := by
  constructor
  · constructor
    · intro He
      by_contra h0
      have hok := repay_stable_ok_of_pos rate rf denom s l h funds hle h0
      rw [He] at hok
      simp [TxResult.isOk] at hok
    · intro h0
      simp [repay_stable, h0]
  · intro hpos
    exact repay_stable_ok_of_pos rate rf denom s l h funds hle
      (Nat.pos_iff_ne_zero.mp hpos)

/-- Claim C7 witness: attaching no coin of the stable denomination is
rejected as a zero repay, and a positive attached amount succeeds. -/
theorem repay_zero_iff_witness :
    repay_stable 0 0 "uusd" ⟨0, 0, SCALE, 0⟩ ⟨5, SCALE⟩ 3 [] =
      TxResult.err "Cannot repay zero coins" ∧
    (repay_stable 0 0 "uusd" ⟨0, 0, SCALE, 0⟩ ⟨5, SCALE⟩ 3
      [("uusd", 3)]).isOk = true :=
  ⟨(repay_zero_iff 0 0 "uusd" ⟨0, 0, SCALE, 0⟩ ⟨5, SCALE⟩ 3 [] (by decide)).1.mpr
     (by decide),
   (repay_zero_iff 0 0 "uusd" ⟨0, 0, SCALE, 0⟩ ⟨5, SCALE⟩ 3 [("uusd", 3)]
     (by decide)).2 (by decide)⟩

/-- Claim C3 (amended): after accrual and projection, with projected
debt D whose scaled value does not exceed the post-accrual
total_liabilities, a tendered amount t greater than D zeroes the
borrower debt, decreases total_liabilities by exactly D, and issues a
refund instruction of exactly t - D (pre-levy); a tendered amount
t at most D reduces the debt and total_liabilities by exactly t with no
refund.  (The exact-decrease hypothesis is needed because the clamped
decimal subtraction floors total_liabilities at zero when it is smaller
than the repaid amount, as the counterexample shows.) -/
theorem repay_overpayment_refund (rate rf : Decimal) (denom : String)
    (s s1 : State) (l : Liability) (h t D : Nat)
    (H : compute_interest rate rf s h = TxResult.ok s1)
    (hD : (compute_loan s1 l).loan_amount = D)
    (hclamp : mkDecimal D 1 ≤ s1.total_liabilities)
    (hpos : 0 < t) :
    (D < t →
      repay_stable rate rf denom s l h [(denom, t)] = TxResult.ok
        ({ s1 with total_liabilities := s1.total_liabilities - mkDecimal D 1 },
         { compute_loan s1 l with loan_amount := 0 }, some (t - D)) ∧
      s1.total_liabilities - mkDecimal D 1 + mkDecimal D 1 =
        s1.total_liabilities) ∧
    (t ≤ D →
      repay_stable rate rf denom s l h [(denom, t)] = TxResult.ok
        ({ s1 with total_liabilities := s1.total_liabilities - mkDecimal t 1 },
         { compute_loan s1 l with loan_amount := D - t }, none) ∧
      s1.total_liabilities - mkDecimal t 1 + mkDecimal t 1 =
        s1.total_liabilities) := by
  have hamt : sentAmount [(denom, t)] denom = t := sentAmount_single denom t
  have ht0 : ¬ t = 0 := Nat.pos_iff_ne_zero.mp hpos
  constructor
  · intro hlt
    have hcond : (compute_loan s1 l).loan_amount < t := by omega
    refine ⟨?_, Nat.sub_add_cancel hclamp⟩
    simp [repay_stable, hamt, ht0, H, hcond, checkedSub, Nat.le_of_lt hcond,
      decimal_subtraction, hD, hlt, Nat.le_of_lt hlt]
  · intro hge
    have hcond : ¬ (compute_loan s1 l).loan_amount < t := by omega
    have hsub : t ≤ (compute_loan s1 l).loan_amount := by omega
    have hmono : mkDecimal t 1 ≤ mkDecimal D 1 :=
      Nat.div_le_div_right (Nat.mul_le_mul hge (Nat.le_refl SCALE))
    have hng : ¬ D < t := by omega
    refine ⟨?_, Nat.sub_add_cancel (hmono.trans hclamp)⟩
    simp [repay_stable, hamt, ht0, H, hcond, checkedSub, hsub,
      decimal_subtraction, hD, hng, hge]

/-- Claim C3 counterexample: with post-accrual total_liabilities 0 but a
projected borrower debt of D = 5, repaying t = 7 zeroes the debt and
refunds 2, yet total_liabilities stays 0 (the clamped subtraction floors
it) — it does not decrease by exactly D = 5, since 0 + mkDecimal 5 1 is
not the pre-call value 0. -/
theorem repay_overpayment_refund_cex :
    compute_interest 0 0 ⟨0, 0, SCALE, 0⟩ 0 = TxResult.ok ⟨0, 0, SCALE, 0⟩ ∧
    (compute_loan ⟨0, 0, SCALE, 0⟩ ⟨5, SCALE⟩).loan_amount = 5 ∧
    repay_stable 0 0 "uusd" ⟨0, 0, SCALE, 0⟩ ⟨5, SCALE⟩ 0 [("uusd", 7)] =
      TxResult.ok (⟨0, 0, SCALE, 0⟩, ⟨0, SCALE⟩, some 2) ∧
    (0 : Nat) + mkDecimal 5 1 ≠ 0 := by
  decide

/-- Claim C3 witness: the amended statement on a consistent ledger
(total_liabilities 5.0, projected debt 5): repaying 7 zeroes the debt,
reduces total_liabilities by exactly 5, and refunds 2. -/
theorem repay_overpayment_refund_witness :
    repay_stable 0 0 "uusd" ⟨5 * SCALE, 0, SCALE, 0⟩ ⟨5, SCALE⟩ 0
        [("uusd", 7)] = TxResult.ok
      (⟨5 * SCALE - mkDecimal 5 1, 0, SCALE, 0⟩, ⟨0, SCALE⟩, some 2) ∧
    5 * SCALE - mkDecimal 5 1 + mkDecimal 5 1 = 5 * SCALE :=
  (repay_overpayment_refund 0 0 "uusd" ⟨5 * SCALE, 0, SCALE, 0⟩
    ⟨5 * SCALE, 0, SCALE, 0⟩ ⟨5, SCALE⟩ 0 7 5 (by decide) (by decide)
    (by decide) (by decide)).1 (by decide)

/-- Claim C10 (amended): the liquidation-repay variant surfaces the
authorization failure as a returned error, but the balance subtraction
is unwrapped: when the current stable-denomination balance is below the
supplied previous balance, the underflowing subtraction panics (aborts
the execution) instead of being returned as an error; when the balance
difference is well defined (and host time is monotone) the operation
never aborts. -/
theorem liquidation_repay_outcomes (rate rf : Decimal) (denom : String)
    (auth : Bool) (cur prev : Nat) (s : State) (l : Liability) (h : Nat) :
    (auth = false →
      repay_stable_from_liquidation rate rf denom auth cur prev s l h =
        TxResult.err "unauthorized") ∧
    (auth = true → cur < prev →
      repay_stable_from_liquidation rate rf denom auth cur prev s l h =
        TxResult.abort) ∧
    (auth = true → prev ≤ cur → s.last_interest_updated ≤ h →
      repay_stable_from_liquidation rate rf denom auth cur prev s l h ≠
        TxResult.abort) := by
  refine ⟨?_, ?_, ?_⟩
  · intro ha
    simp [repay_stable_from_liquidation, ha]
  · intro ha hlt
    have hn : ¬ prev ≤ cur := Nat.not_le.mpr hlt
    simp [repay_stable_from_liquidation, ha, checkedSub, hn]
  · intro ha hge hle
    simp [repay_stable_from_liquidation, ha, checkedSub, hge]
    exact repay_stable_not_abort rate rf denom s l h _ hle

/-- Claim C10 counterexample: an authorized liquidation repay with
current balance 0 and previous balance 1 aborts (the unwrap of the
underflowing balance subtraction panics); it is not surfaced as a
returned error result. -/
theorem liquidation_repay_cex :
    repay_stable_from_liquidation 0 0 "uusd" true 0 1 ⟨0, 0, SCALE, 0⟩
      ⟨0, SCALE⟩ 0 = TxResult.abort := by
  decide

/-- Claim C10 witness: the amended statement at concrete inputs — an
unauthorized caller gets the error result, and a well-defined balance
difference never aborts. -/
theorem liquidation_repay_outcomes_witness :
    repay_stable_from_liquidation 0 0 "uusd" false 0 0 ⟨0, 0, SCALE, 0⟩
      ⟨0, SCALE⟩ 0 = TxResult.err "unauthorized" ∧
    repay_stable_from_liquidation 0 0 "uusd" true 5 3 ⟨0, 0, SCALE, 0⟩
      ⟨7, SCALE⟩ 0 ≠ TxResult.abort :=
  ⟨(liquidation_repay_outcomes 0 0 "uusd" false 0 0 ⟨0, 0, SCALE, 0⟩
      ⟨0, SCALE⟩ 0).1 rfl,
   (liquidation_repay_outcomes 0 0 "uusd" true 5 3 ⟨0, 0, SCALE, 0⟩
      ⟨7, SCALE⟩ 0).2.2 rfl (by decide) (by decide)⟩

/-! ## Invariant preservation across operation sequences -/

theorem applyOp_mono (denom : String) (sl : State × Liability) (op : Op) :
    sl.1.last_interest_updated ≤ (applyOp denom sl op).1.last_interest_updated ∧
    sl.1.global_interest_index ≤ (applyOp denom sl op).1.global_interest_index := by
  cases op with
  | accrue rate rf h =>
    cases Hc : compute_interest rate rf sl.1 h with
    | ok s1 =>
      obtain ⟨i1, i2, i3⟩ := compute_interest_ok_inv Hc
      simp [applyOp, Hc]
      constructor
      · omega
      · exact i3
    | err e => simp [applyOp, Hc]
    | abort => simp [applyOp, Hc]
  | borrow rate rf h amount limit =>
    cases Hc : compute_interest rate rf sl.1 h with
    | ok s1 =>
      obtain ⟨i1, i2, i3⟩ := compute_interest_ok_inv Hc
      by_cases hcond : limit < amount + (compute_loan s1 sl.2).loan_amount
      · simp [applyOp, borrow_stable, Hc, hcond]
      · simp [applyOp, borrow_stable, Hc, hcond]
        constructor
        · omega
        · exact i3
    | err e => simp [applyOp, borrow_stable, Hc]
    | abort => simp [applyOp, borrow_stable, Hc]
  | repay rate rf h funds =>
    by_cases h0 : sentAmount funds denom = 0
    · simp [applyOp, repay_stable, h0]
    · cases Hc : compute_interest rate rf sl.1 h with
      | ok s1 =>
        obtain ⟨i1, i2, i3⟩ := compute_interest_ok_inv Hc
        by_cases hb : (compute_loan s1 sl.2).loan_amount < sentAmount funds denom
        · simp [applyOp, repay_stable, h0, Hc, hb, checkedSub, Nat.le_of_lt hb]
          constructor
          · omega
          · exact i3
        · have hb2 : sentAmount funds denom ≤ (compute_loan s1 sl.2).loan_amount :=
            Nat.le_of_not_lt hb
          simp [applyOp, repay_stable, h0, Hc, hb, checkedSub, hb2]
          constructor
          · omega
          · exact i3
      | err e => simp [applyOp, repay_stable, h0, Hc]
      | abort => simp [applyOp, repay_stable, h0, Hc]

theorem execOps_mono (denom : String) (sl : State × Liability) (ops : List Op) :
    sl.1.last_interest_updated ≤ (execOps denom sl ops).1.last_interest_updated ∧
    sl.1.global_interest_index ≤ (execOps denom sl ops).1.global_interest_index := by
  induction ops generalizing sl with
  | nil => exact ⟨Nat.le_refl _, Nat.le_refl _⟩
  | cons op rest ih =>
    have h1 := applyOp_mono denom sl op
    have h2 := ih (applyOp denom sl op)
    exact ⟨h1.1.trans h2.1, h1.2.trans h2.2⟩

/-- Claim C5: across every sequence of accrual, borrow and repay
operations (run under the host transaction semantics, where a failing
operation rolls back), last_interest_updated never decreases,
global_interest_index never decreases, and total_liabilities and
total_reserves are never negative — the unsigned carrier together with
the clamped decimal subtraction on the repay path makes a negative
aggregate unrepresentable and the subtraction total. -/
theorem ledger_invariants_preserved (denom : String) (sl : State × Liability)
    (ops : List Op) :
    sl.1.last_interest_updated ≤ (execOps denom sl ops).1.last_interest_updated ∧
    sl.1.global_interest_index ≤ (execOps denom sl ops).1.global_interest_index ∧
    (0 : Int) ≤ ((execOps denom sl ops).1.total_liabilities : Int) ∧
    (0 : Int) ≤ ((execOps denom sl ops).1.total_reserves : Int) := by
  have hm := execOps_mono denom sl ops
  exact ⟨hm.1, hm.2, Int.natCast_nonneg _, Int.natCast_nonneg _⟩
